import Mathlib

/-!
Shallow embedding of `src/collection.cpp` (DataStax C++ driver collection
encoding) together with theorems checking the specification's claims.

Bytes are modelled as natural numbers (< 256 when produced by the encoders),
buffers as lists of bytes, and the protocol version as an `Int` (the source
uses a C `int`).  Functions that the source declares `const` are embedded as
pure functions; stateful operations (the appends) return the updated
collection explicitly.
-/

namespace CassDriver

/-- Source: `CassCollectionType` from the public API (cassandra.h). -/
inductive CassCollectionType where
  | LIST
  | MAP
  | SET
  | TUPLE
deriving DecidableEq, Repr

/-- The `CassError` codes reachable from this translation unit. -/
inductive CassError where
  | CASS_OK
  | CASS_ERROR_LIB_INVALID_VALUE_TYPE
  | CASS_ERROR_LIB_INVALID_DATA_TYPE
deriving DecidableEq, Repr

/-- A byte buffer (`cass::Buffer`): a list of bytes. -/
abbrev Buffer := List Nat

/-- Modelled from the spec: the declared-type/schema descriptor
(`cass::DataType`, declared outside this fragment).  A descriptor is a
primitive type tag, a collection/tuple type with its ordered subtypes, or a
user-defined (record) type with its ordered field types. -/
inductive DataType where
  | primitive (tag : Nat)
  | coll (kind : CassCollectionType) (subtypes : List DataType)
  | userType (fields : List DataType)

mutual

/-- Modelled from the spec: structural equality of type descriptors, the
comparison used by the validation guard (`DataType::equals`, outside this
fragment). -/
def DataType.beq : DataType → DataType → Bool
  | .primitive a, .primitive b => a == b
  | .coll k1 s1, .coll k2 s2 => (k1 = k2 : Bool) && DataType.beqList s1 s2
  | .userType f1, .userType f2 => DataType.beqList f1 f2
  | _, _ => false

/-- Pointwise `DataType.beq` on subtype lists. -/
def DataType.beqList : List DataType → List DataType → Bool
  | [], [] => true
  | a :: as, b :: bs => DataType.beq a b && DataType.beqList as bs
  | _, _ => false

end

/-- Source: `DataType::is_collection()`: true for LIST, SET and MAP collection types. -/
def DataType.is_collection : DataType → Bool
  | .coll .LIST _ => true
  | .coll .SET _ => true
  | .coll .MAP _ => true
  | _ => false

/-- Source: `DataType::is_tuple()`: true for tuple types. -/
def DataType.is_tuple : DataType → Bool
  | .coll .TUPLE _ => true
  | _ => false

/-- Source: `cass::Collection`: the composite container.  `kind` is `type()`,
`dataType` the optional declared type, `items` the ordered vector of
pre-encoded item buffers (`items_`), `sizeHint` the construction capacity
hint, `refCount` the reference count of the `RefCounted` base. -/
structure Collection where
  kind : CassCollectionType
  dataType : Option DataType
  items : List Buffer
  sizeHint : Nat
  refCount : Nat

/-- Source: `cass::encode_int32`: big-endian 4-byte encoding (truncating to 32 bits). -/
def encode_int32 (value : Nat) : Buffer :=
  [value / 16777216 % 256, value / 65536 % 256, value / 256 % 256, value % 256]

/-- Source: `cass::encode_uint16`: big-endian 2-byte encoding (truncating to 16 bits). -/
def encode_uint16 (value : Nat) : Buffer :=
  [value / 256 % 256, value % 256]

/-- Source: `Collection::get_items_size(size_t num_bytes_for_size)`: sums, over all
items, the per-item length-field width plus the item's byte length. -/
def get_items_size (items : List Buffer) (num_bytes_for_size : Nat) : Nat :=
  items.foldl (fun size b => size + num_bytes_for_size + b.length) 0

/-- Source: `Collection::encode_items_int32`: each item as a 4-byte big-endian length
field followed by the item's bytes. -/
def encode_items_int32 (items : List Buffer) : Buffer :=
  (items.map (fun b => encode_int32 b.length ++ b)).flatten

/-- Source: `Collection::encode_items_uint16`: each item as a 2-byte big-endian length
field followed by the item's bytes. -/
def encode_items_uint16 (items : List Buffer) : Buffer :=
  (items.map (fun b => encode_uint16 b.length ++ b)).flatten

/-- Modelled from the spec: `Collection::get_count` (declared in
collection.hpp, not part of this fragment) is `encoded_item_count()`, the
number of entries in `items` (for MAP, keys and values counted together). -/
def Collection.get_count (c : Collection) : Nat := c.items.length

/-- Source: `Collection::get_items_size(int version)`. -/
def Collection.get_items_size_for_version (c : Collection) (version : Int) : Nat :=
  if version ≥ 3 ∨ c.kind = CassCollectionType.TUPLE then
    get_items_size c.items 4
  else
    get_items_size c.items 2

/-- Source: `Collection::encode_items(int version, char* buf)`. -/
def Collection.encode_items (c : Collection) (version : Int) : Buffer :=
  if version ≥ 3 ∨ c.kind = CassCollectionType.TUPLE then
    encode_items_int32 c.items
  else
    encode_items_uint16 c.items

/-- Source: `Collection::get_size_with_length(int version)`: 4-byte outer length field
plus count-field width plus the items' size; note the source branches only on
`version`, never on TUPLE. -/
def Collection.get_size_with_length (c : Collection) (version : Int) : Nat :=
  4 + (if version ≥ 3 then 4 + get_items_size c.items 4
       else 2 + get_items_size c.items 2)

/-- Source: `Collection::encode()`: the inner (nested) encoding.  Always int32 widths;
a TUPLE writes its items only, any other kind writes the count first. -/
def Collection.encode (c : Collection) : Buffer :=
  if c.kind = CassCollectionType.TUPLE then
    encode_items_int32 c.items
  else
    encode_int32 c.get_count ++ encode_items_int32 c.items

/-- Source: `Collection::encode_with_length(int version)`: the top-level encoding.
A TUPLE writes `[int32 total][items]` with no count field; otherwise
`[int32 total][count][items]` with int32 widths for `version >= 3` and
uint16 widths below. -/
def Collection.encode_with_length (c : Collection) (version : Int) : Buffer :=
  if c.kind = CassCollectionType.TUPLE then
    encode_int32 (get_items_size c.items 4) ++ encode_items_int32 c.items
  else if version ≥ 3 then
    encode_int32 (4 + get_items_size c.items 4) ++
      encode_int32 c.get_count ++ encode_items_int32 c.items
  else
    encode_int32 (2 + get_items_size c.items 2) ++
      encode_uint16 c.get_count ++ encode_items_uint16 c.items

/-- Modelled from the spec: the element/field type the validation guard
compares an appended nested value against (§4.3): the single element type for
LIST/SET, the key or value type for MAP depending on the current parity of
`items`, and for TUPLE the field type at the next unfilled position.  `none`
when the container has no declared type (no validation possible). -/
def Collection.expected_type (c : Collection) : Option DataType :=
  match c.dataType with
  | none => none
  | some (DataType.coll _ subs) =>
    match c.kind with
    | CassCollectionType.LIST => subs.get? 0
    | CassCollectionType.SET => subs.get? 0
    | CassCollectionType.MAP => subs.get? (c.items.length % 2)
    | CassCollectionType.TUPLE => subs.get? c.items.length
  | some _ => none

/-- Modelled from the spec: `CASS_COLLECTION_CHECK_TYPE` (defined in driver headers outside this fragment) passes when the container carries no
usable declared element type or when the appended value's type descriptor
matches it. -/
def Collection.check_type (c : Collection) (t : DataType) : Bool :=
  match c.expected_type with
  | none => true
  | some e => DataType.beq e t

/-- Modelled from the spec: the type descriptor a nested collection presents
to the guard (`Collection::data_type()`): its declared type when present,
otherwise a schema-less collection type of its kind. -/
def Collection.value_data_type (c : Collection) : DataType :=
  match c.dataType with
  | some dt => dt
  | none => DataType.coll c.kind []

/-- Modelled from the spec: `cass::UserTypeValue`, a fixed-schema record value
(user_type_value.hpp, outside this fragment): its type descriptor and its
ordered pre-encoded field buffers. -/
structure UserTypeValue where
  dataType : DataType
  items : List Buffer

/-- Modelled from the spec: `UserTypeValue::encode()` — a nested record value
is fully serialized with the fixed inner layout (4-byte length fields) before
being stored as an item. -/
def UserTypeValue.encode (u : UserTypeValue) : Buffer :=
  encode_items_int32 u.items

/-- Source: `Collection::append(const Collection*)`: type-check, then push the nested
collection's inner encoding. -/
def Collection.append_collection (c : Collection) (value : Collection) :
    CassError × Collection :=
  if c.check_type value.value_data_type then
    (CassError.CASS_OK, { c with items := c.items ++ [value.encode] })
  else
    (CassError.CASS_ERROR_LIB_INVALID_VALUE_TYPE, c)

/-- Source: `Collection::append(const UserTypeValue*)`: type-check, then push the
record's encoding. -/
def Collection.append_user_type (c : Collection) (value : UserTypeValue) :
    CassError × Collection :=
  if c.check_type value.dataType then
    (CassError.CASS_OK, { c with items := c.items ++ [value.encode] })
  else
    (CassError.CASS_ERROR_LIB_INVALID_VALUE_TYPE, c)

/-- Modelled from the spec: the primitive `Collection::append` overloads
(collection.hpp, outside this fragment) hand the value to the matching
external encoder and push the resulting self-contained buffer; they always
succeed (no type check is performed for primitives). `bytes` here stands for
the already-encoded buffer the external encoder produced. -/
def Collection.append_bytes (c : Collection) (bytes : Buffer) :
    CassError × Collection :=
  (CassError.CASS_OK, { c with items := c.items ++ [bytes] })

/-- Source: `strlen` on a modelled C string: the byte contents of memory at the
pointer, scanned up to the first NUL byte. -/
def strlen (s : List Nat) : Nat := (s.takeWhile (fun b => b ≠ 0)).length

/-- Modelled from the spec: `CassString(value, length)` wraps `length` bytes
starting at the pointer; the text encoder's output is those raw bytes. -/
def cassString (s : List Nat) (length : Nat) : Buffer := s.take length

/-- Source: `cass_collection_append_string_n`: appends the first `value_length` bytes
and unconditionally returns `CASS_OK`, discarding the underlying status. -/
def cass_collection_append_string_n (c : Collection) (value : List Nat)
    (value_length : Nat) : CassError × Collection :=
  let r := c.append_bytes (cassString value value_length)
  (CassError.CASS_OK, r.2)

/-- Source: `cass_collection_append_string`: like `..._string_n` with
`strlen(value)`, unconditionally returning `CASS_OK`. -/
def cass_collection_append_string (c : Collection) (value : List Nat) :
    CassError × Collection :=
  let r := c.append_bytes (cassString value (strlen value))
  (CassError.CASS_OK, r.2)

/-- Modelled from the spec: the `Collection(type, item_count)` constructor
(collection.hpp): empty items, no declared type; the `RefCounted` base starts
with a zero reference count (ref_counted.hpp, outside this fragment). -/
def collection_new_raw (type : CassCollectionType) (item_count : Nat) :
    Collection :=
  ⟨type, none, [], item_count, 0⟩

/-- Modelled from the spec: `RefCounted::inc_ref()` increments the reference
count (ref_counted.hpp, outside this fragment). -/
def Collection.inc_ref (c : Collection) : Collection :=
  { c with refCount := c.refCount + 1 }

/-- Source: `cass_collection_new`: allocate, `inc_ref`, return the handle. -/
def cass_collection_new (type : CassCollectionType) (item_count : Nat) :
    Collection :=
  (collection_new_raw type item_count).inc_ref

/-- The collection kind recorded by a collection/tuple type descriptor. -/
def data_type_kind : DataType → CassCollectionType
  | DataType.coll k _ => k
  | _ => CassCollectionType.LIST

/-- Modelled from the spec: the `Collection(data_type, item_count)`
constructor (collection.hpp) stores the declared type for later validation;
the reference count starts at zero and is not incremented here. -/
def collection_from_data_type (dt : DataType) (item_count : Nat) : Collection :=
  ⟨data_type_kind dt, some dt, [], item_count, 0⟩

/-- Source: `cass_collection_new_from_data_type`: NULL (here `none`) when the declared
type is neither a collection nor a tuple type; otherwise a fresh collection
holding the declared type. -/
def cass_collection_new_from_data_type (dt : DataType) (item_count : Nat) :
    Option Collection :=
  if ¬ dt.is_collection ∧ ¬ dt.is_tuple then
    none
  else
    some (collection_from_data_type dt item_count)

/-- State-passing embedding of the `const` method `Collection::encode()`:
the method body performs no member write, so the post-state is the input
collection unchanged. -/
def Collection.encode_st (c : Collection) : Buffer × Collection :=
  (c.encode, c)

/-- State-passing embedding of the `const` method
`Collection::encode_with_length(int)`. -/
def Collection.encode_with_length_st (c : Collection) (version : Int) :
    Buffer × Collection :=
  (c.encode_with_length version, c)

/-- State-passing embedding of the `const` method
`Collection::get_size_with_length(int)`. -/
def Collection.get_size_with_length_st (c : Collection) (version : Int) :
    Nat × Collection :=
  (c.get_size_with_length version, c)

/-- The top-level wire layout exactly as the specification words it (§4.1,
§6): a 4-byte big-endian total length of everything that follows, then a
count field (4 bytes when `version >= 3` or the kind is TUPLE, else 2),
then each item with a length field of the same width.  Written from the
spec's words, for comparison against `Collection.encode_with_length`. -/
def spec_top_layout (c : Collection) (version : Int) : Buffer :=
  let body :=
    (if version ≥ 3 ∨ c.kind = CassCollectionType.TUPLE then
      encode_int32 c.get_count ++ encode_items_int32 c.items
    else
      encode_uint16 c.get_count ++ encode_items_uint16 c.items)
  encode_int32 body.length ++ body

/-- The inner (nested) wire layout exactly as the specification words it
(§4.1, §6): `[int32 count] then each item as [int32 item_len][bytes]`, for
every kind.  Written from the spec's words, for comparison against
`Collection.encode`. -/
def spec_inner_layout (c : Collection) : Buffer :=
  encode_int32 c.get_count ++ encode_items_int32 c.items

/-- Big-endian value of a byte list. -/
def beVal (bytes : List Nat) : Nat :=
  bytes.foldl (fun acc b => acc * 256 + b) 0

/-- Read a `width`-byte big-endian integer off the front of a buffer. -/
def read_be (width : Nat) (buf : List Nat) : Option (Nat × List Nat) :=
  if width ≤ buf.length then
    some (beVal (buf.take width), buf.drop width)
  else
    none

/-- Parse `count` items, each a `width`-byte big-endian length field followed
by that many bytes. -/
def parse_items (width : Nat) : Nat → List Nat → Option (List Buffer × List Nat)
  | 0, buf => some ([], buf)
  | Nat.succ n, buf =>
    match read_be width buf with
    | none => none
    | some (len, rest) =>
      if len ≤ rest.length then
        match parse_items width n (rest.drop len) with
        | none => none
        | some (items, rest2) => some (rest.take len :: items, rest2)
      else none

/-- Parser for the documented top-level wire layout (spec §6): a 4-byte total
length field, a count field of the documented width (`wide` selects 4 or 2
bytes), then `count` items each with a length field of the same width,
consuming the whole buffer.  Returns the recovered count and item buffers. -/
def parse_top (wide : Bool) (buf : List Nat) : Option (Nat × List Buffer) :=
  let w := if wide then 4 else 2
  match read_be 4 buf with
  | none => none
  | some (_, rest) =>
    match read_be w rest with
    | none => none
    | some (count, rest2) =>
      match parse_items w count rest2 with
      | none => none
      | some (items, rest3) =>
        if rest3 = [] then some (count, items) else none

/-! ### Supporting lemmas -/

theorem get_items_size_shift (items : List Buffer) (w a : Nat) :
    items.foldl (fun size b => size + w + b.length) a =
      a + get_items_size items w := by
  unfold get_items_size
  induction items generalizing a with
  | nil => simp
  | cons b bs ih =>
    simp only [List.foldl_cons]
    rw [ih, ih (0 + w + b.length)]
    omega

theorem get_items_size_cons (b : Buffer) (items : List Buffer) (w : Nat) :
    get_items_size (b :: items) w = w + b.length + get_items_size items w := by
  have h := get_items_size_shift items w (0 + w + b.length)
  unfold get_items_size at *
  simp only [List.foldl_cons]
  omega

theorem length_encode_int32 (n : Nat) : (encode_int32 n).length = 4 := rfl

theorem length_encode_uint16 (n : Nat) : (encode_uint16 n).length = 2 := rfl

theorem length_encode_items_int32 (items : List Buffer) :
    (encode_items_int32 items).length = get_items_size items 4 := by
  induction items with
  | nil => rfl
  | cons b bs ih =>
    have h : encode_items_int32 (b :: bs) =
        (encode_int32 b.length ++ b) ++ encode_items_int32 bs := by
      simp [encode_items_int32]
    rw [h, List.length_append, List.length_append, length_encode_int32, ih,
      get_items_size_cons]

theorem length_encode_items_uint16 (items : List Buffer) :
    (encode_items_uint16 items).length = get_items_size items 2 := by
  induction items with
  | nil => rfl
  | cons b bs ih =>
    have h : encode_items_uint16 (b :: bs) =
        (encode_uint16 b.length ++ b) ++ encode_items_uint16 bs := by
      simp [encode_items_uint16]
    rw [h, List.length_append, List.length_append, length_encode_uint16, ih,
      get_items_size_cons]

theorem beVal_encode_int32 (n : Nat) (h : n < 4294967296) :
    beVal (encode_int32 n) = n := by
  simp only [beVal, encode_int32, List.foldl_cons, List.foldl_nil]
  omega

theorem beVal_encode_uint16 (n : Nat) (h : n < 65536) :
    beVal (encode_uint16 n) = n := by
  simp only [beVal, encode_uint16, List.foldl_cons, List.foldl_nil]
  omega

theorem read_be_append (w : Nat) (l rest : List Nat) (h : l.length = w) :
    read_be w (l ++ rest) = some (beVal l, rest) := by
  subst h
  unfold read_be
  rw [if_pos (by simp), List.take_left, List.drop_left]

theorem parse_items_round_trip_int32 (items : List Buffer) (tail : List Nat)
    (hb : ∀ b ∈ items, b.length < 4294967296) :
    parse_items 4 items.length (encode_items_int32 items ++ tail) =
      some (items, tail) := by
  induction items generalizing tail with
  | nil => simp [parse_items, encode_items_int32]
  | cons b bs ih =>
    have hsplit : encode_items_int32 (b :: bs) ++ tail =
        encode_int32 b.length ++ (b ++ (encode_items_int32 bs ++ tail)) := by
      simp [encode_items_int32]
    have hlen : b.length < 4294967296 := hb b (List.mem_cons_self b bs)
    simp only [List.length_cons, parse_items, hsplit,
      read_be_append 4 (encode_int32 b.length) _ (length_encode_int32 _),
      beVal_encode_int32 b.length hlen]
    rw [if_pos (by simp), List.take_left, List.drop_left,
      ih _ (fun x hx => hb x (List.mem_cons_of_mem b hx))]

theorem parse_items_round_trip_uint16 (items : List Buffer) (tail : List Nat)
    (hb : ∀ b ∈ items, b.length < 65536) :
    parse_items 2 items.length (encode_items_uint16 items ++ tail) =
      some (items, tail) := by
  induction items generalizing tail with
  | nil => simp [parse_items, encode_items_uint16]
  | cons b bs ih =>
    have hsplit : encode_items_uint16 (b :: bs) ++ tail =
        encode_uint16 b.length ++ (b ++ (encode_items_uint16 bs ++ tail)) := by
      simp [encode_items_uint16]
    have hlen : b.length < 65536 := hb b (List.mem_cons_self b bs)
    simp only [List.length_cons, parse_items, hsplit,
      read_be_append 2 (encode_uint16 b.length) _ (length_encode_uint16 _),
      beVal_encode_uint16 b.length hlen]
    rw [if_pos (by simp), List.take_left, List.drop_left,
      ih _ (fun x hx => hb x (List.mem_cons_of_mem b hx))]

/-! ### Concrete example containers -/

/-- An empty TUPLE container (no declared type, zero size hint). -/
def emptyTuple : Collection := ⟨CassCollectionType.TUPLE, none, [], 0, 0⟩

/-- A LIST container holding two already-encoded items. -/
def listTwo : Collection := ⟨CassCollectionType.LIST, none, [[7], [8, 9]], 0, 0⟩

/-! ### Claim theorems -/

/-- Claim C1: the claim states that for every constructed container and every
protocol version `v`, `get_size_with_length v` equals the byte length of the
buffer produced by `encode_with_length v`, including for TUPLE containers.
The code violates this for TUPLE: `encode_with_length` special-cases TUPLE
(no count field) while `get_size_with_length` does not.  At the empty TUPLE
and version 3, `get_size_with_length` returns 8 but `encode_with_length`
produces a 4-byte buffer. -/
theorem C1_tuple_size_vs_encode_mismatch :
    emptyTuple.get_size_with_length 3 = 8 ∧
      (emptyTuple.encode_with_length 3).length = 4 := by
  constructor <;> rfl

/-- Claim C2 (counterexample): the claim says a TUPLE's top-level encoding
always contains a 4-byte item-count field after the total-length field; the
code writes no count field for TUPLE, so at the empty TUPLE and version 3
the encoding differs from the spec's worded layout. -/
theorem C2_counterexample :
    emptyTuple.encode_with_length 3 ≠ spec_top_layout emptyTuple 3 := by
  decide

/-- Claim C2 (amended): for non-TUPLE kinds `encode_with_length` produces
exactly the spec's worded top-level layout (4-byte total length of what
follows, then a count field of 4 bytes iff `version >= 3`, then the items
with length fields of the same width); a TUPLE instead gets a 4-byte total
length followed directly by the items with 4-byte length fields and no count
field. -/
theorem C2_top_level_layout (c : Collection) (version : Int) :
    c.encode_with_length version =
      if c.kind = CassCollectionType.TUPLE then
        encode_int32 (encode_items_int32 c.items).length ++
          encode_items_int32 c.items
      else
        spec_top_layout c version := by
  by_cases ht : c.kind = CassCollectionType.TUPLE
  · rw [if_pos ht]
    unfold Collection.encode_with_length
    rw [if_pos ht, length_encode_items_int32]
  · rw [if_neg ht]
    unfold Collection.encode_with_length spec_top_layout
    rw [if_neg ht]
    by_cases hv : version ≥ 3
    · rw [if_pos hv, if_pos (Or.inl hv)]
      simp only [List.length_append, length_encode_int32,
        length_encode_items_int32, List.append_assoc]
    · have hw : ¬(version ≥ 3 ∨ c.kind = CassCollectionType.TUPLE) := by
        rintro (h | h)
        · exact hv h
        · exact ht h
      rw [if_neg hv, if_neg hw]
      simp only [List.length_append, length_encode_uint16,
        length_encode_items_uint16, List.append_assoc]

/-- Claim C3 (counterexample): the claim says `encode` produces
`[int32 count]` followed by the items for every kind; for a TUPLE the code
writes no count field, so the empty TUPLE encodes to the empty buffer rather
than to `[int32 0]`. -/
theorem C3_counterexample :
    emptyTuple.encode ≠ spec_inner_layout emptyTuple := by
  decide

/-- Claim C3 (amended): `encode` (the inner layout) always uses 4-byte
widths, takes no protocol version, and writes no outer total-length field;
for non-TUPLE kinds it is exactly `[int32 count]` followed by each item with
a 4-byte length field, while a TUPLE writes the items only, with no count
field. -/
theorem C3_inner_layout (c : Collection) :
    c.encode =
      (if c.kind = CassCollectionType.TUPLE then []
       else encode_int32 c.get_count) ++ encode_items_int32 c.items ∧
    c.encode.length =
      (if c.kind = CassCollectionType.TUPLE then 0 else 4) +
        get_items_size c.items 4 := by
  by_cases ht : c.kind = CassCollectionType.TUPLE
  · rw [Collection.encode, if_pos ht, if_pos ht, if_pos ht]
    exact ⟨(List.nil_append _).symm, by rw [length_encode_items_int32]; omega⟩
  · rw [Collection.encode, if_neg ht, if_neg ht, if_neg ht]
    refine ⟨rfl, ?_⟩
    simp only [List.length_append, length_encode_int32,
      length_encode_items_int32]

/-- Claim C4: appending a nested collection or record value whose type fails
the container's type check returns `CASS_ERROR_LIB_INVALID_VALUE_TYPE` and
leaves the container (hence its item count) unchanged; when the check passes
the append returns `CASS_OK` and appends exactly the nested value's encoded
buffer. -/
theorem C4_nested_append_type_check (c value : Collection) (u : UserTypeValue) :
    (c.check_type value.value_data_type = false →
      c.append_collection value =
        (CassError.CASS_ERROR_LIB_INVALID_VALUE_TYPE, c)) ∧
    (c.check_type value.value_data_type = true →
      c.append_collection value =
        (CassError.CASS_OK, { c with items := c.items ++ [value.encode] })) ∧
    (c.check_type u.dataType = false →
      c.append_user_type u =
        (CassError.CASS_ERROR_LIB_INVALID_VALUE_TYPE, c)) ∧
    (c.check_type u.dataType = true →
      c.append_user_type u =
        (CassError.CASS_OK, { c with items := c.items ++ [u.encode] })) := by
  refine ⟨fun h => ?_, fun h => ?_, fun h => ?_, fun h => ?_⟩ <;>
    simp [Collection.append_collection, Collection.append_user_type, h]

/-- A LIST container declared as `list<set<...>>`. -/
def declaredList : Collection :=
  ⟨CassCollectionType.LIST,
   some (DataType.coll CassCollectionType.LIST
     [DataType.coll CassCollectionType.SET []]), [], 0, 0⟩

/-- A nested SET collection matching `declaredList`'s element type. -/
def goodNested : Collection :=
  ⟨CassCollectionType.SET, some (DataType.coll CassCollectionType.SET []),
   [], 0, 0⟩

/-- A nested LIST collection not matching `declaredList`'s element type. -/
def badNested : Collection :=
  ⟨CassCollectionType.LIST, some (DataType.coll CassCollectionType.LIST []),
   [], 0, 0⟩

/-- A record (user type) value whose type does not match `declaredList`'s
element type. -/
def recordValue : UserTypeValue := ⟨DataType.userType [], [[1]]⟩

/-- Witness for C4 at concrete inputs: a mismatching nested collection is
rejected with the container unchanged, a matching one is appended, and a
mismatching record value is rejected. -/
theorem C4_nested_append_type_check_witness :
    declaredList.append_collection badNested =
      (CassError.CASS_ERROR_LIB_INVALID_VALUE_TYPE, declaredList) ∧
    declaredList.append_collection goodNested =
      (CassError.CASS_OK,
       { declaredList with items := declaredList.items ++ [goodNested.encode] }) ∧
    declaredList.append_user_type recordValue =
      (CassError.CASS_ERROR_LIB_INVALID_VALUE_TYPE, declaredList) :=
  ⟨(C4_nested_append_type_check declaredList badNested recordValue).1
      (by decide),
   (C4_nested_append_type_check declaredList goodNested recordValue).2.1
      (by decide),
   (C4_nested_append_type_check declaredList goodNested recordValue).2.2.1
      (by decide)⟩

/-- Claim C5: constructing a container from a declared type fails (the C API
returns NULL, here `none`) exactly when the declared type is neither a
collection type nor a tuple type; otherwise it yields a container that
stores the declared type for later validation. -/
theorem C5_new_from_data_type (dt : DataType) (item_count : Nat) :
    (dt.is_collection = false ∧ dt.is_tuple = false →
      cass_collection_new_from_data_type dt item_count = none) ∧
    (dt.is_collection = true ∨ dt.is_tuple = true →
      cass_collection_new_from_data_type dt item_count =
        some (collection_from_data_type dt item_count) ∧
      (collection_from_data_type dt item_count).dataType = some dt) := by
  constructor
  · intro h
    simp [cass_collection_new_from_data_type, h.1, h.2]
  · intro h
    refine ⟨?_, rfl⟩
    unfold cass_collection_new_from_data_type
    rw [if_neg]
    rcases h with h | h <;> simp [h]

/-- Witness for C5 at concrete inputs: a primitive type is rejected, a list
type and a tuple type are accepted and their containers store the type. -/
theorem C5_new_from_data_type_witness :
    cass_collection_new_from_data_type (DataType.primitive 7) 2 = none ∧
    (cass_collection_new_from_data_type
        (DataType.coll CassCollectionType.LIST [DataType.primitive 7]) 2 =
      some (collection_from_data_type
        (DataType.coll CassCollectionType.LIST [DataType.primitive 7]) 2) ∧
     (collection_from_data_type
        (DataType.coll CassCollectionType.LIST [DataType.primitive 7]) 2).dataType =
      some (DataType.coll CassCollectionType.LIST [DataType.primitive 7])) ∧
    (cass_collection_new_from_data_type
        (DataType.coll CassCollectionType.TUPLE []) 0 =
      some (collection_from_data_type
        (DataType.coll CassCollectionType.TUPLE []) 0)) :=
  ⟨(C5_new_from_data_type (DataType.primitive 7) 2).1 (by decide),
   (C5_new_from_data_type
      (DataType.coll CassCollectionType.LIST [DataType.primitive 7]) 2).2
      (Or.inl (by decide)),
   ((C5_new_from_data_type (DataType.coll CassCollectionType.TUPLE []) 0).2
      (Or.inr (by decide))).1⟩

theorem parse_top_round_trip_int32 (total : Nat) (items : List Buffer)
    (hcount : items.length < 4294967296)
    (hitems : ∀ b ∈ items, b.length < 4294967296) :
    parse_top true
      (encode_int32 total ++ encode_int32 items.length ++
        encode_items_int32 items) =
      some (items.length, items) := by
  have h3 := parse_items_round_trip_int32 items [] hitems
  rw [List.append_nil] at h3
  rw [List.append_assoc]
  simp only [parse_top, if_true,
    read_be_append 4 (encode_int32 total) _ (length_encode_int32 _)]
  rw [read_be_append 4 (encode_int32 items.length) (encode_items_int32 items)
    (length_encode_int32 _)]
  simp [beVal_encode_int32 items.length hcount, h3]

theorem parse_top_round_trip_uint16 (total : Nat) (items : List Buffer)
    (hcount : items.length < 65536)
    (hitems : ∀ b ∈ items, b.length < 65536) :
    parse_top false
      (encode_int32 total ++ encode_uint16 items.length ++
        encode_items_uint16 items) =
      some (items.length, items) := by
  have h3 := parse_items_round_trip_uint16 items [] hitems
  rw [List.append_nil] at h3
  rw [List.append_assoc]
  simp only [parse_top, Bool.false_eq_true, if_false,
    read_be_append 4 (encode_int32 total) _ (length_encode_int32 _)]
  rw [read_be_append 2 (encode_uint16 items.length) (encode_items_uint16 items)
    (length_encode_uint16 _)]
  simp [beVal_encode_uint16 items.length hcount, h3]

/-- Claim C6 (counterexample): the claim says parsing the buffer produced by
`encode_with_length` according to the documented wire layout recovers the
count field and the item sequence for every kind and version; for a TUPLE
the documented layout (which includes a 4-byte count field) does not parse
the produced buffer, already at the empty TUPLE and version 3. -/
theorem C6_counterexample :
    parse_top true (emptyTuple.encode_with_length 3) ≠
      some (emptyTuple.get_count, emptyTuple.items) := by
  decide

/-- Claim C6 (amended): for every non-TUPLE container, parsing the buffer
produced by `encode_with_length` according to the documented wire layout
recovers the count field and the original ordered item sequence, provided
the item count and each item's byte length fit in the version's field width
(16 bits below version 3, 32 bits from version 3 on). -/
theorem C6_round_trip (c : Collection) (version : Int)
    (ht : c.kind ≠ CassCollectionType.TUPLE)
    (hcount : c.get_count < if version ≥ 3 then 4294967296 else 65536)
    (hitems : ∀ b ∈ c.items,
      b.length < if version ≥ 3 then 4294967296 else 65536) :
    parse_top (decide (version ≥ 3)) (c.encode_with_length version) =
      some (c.get_count, c.items) := by
  unfold Collection.encode_with_length
  rw [if_neg ht]
  by_cases hv : version ≥ 3
  · rw [if_pos hv, decide_eq_true hv]
    rw [if_pos hv] at hcount
    simp only [if_pos hv] at hitems
    exact parse_top_round_trip_int32 _ c.items hcount hitems
  · rw [if_neg hv, decide_eq_false hv]
    rw [if_neg hv] at hcount
    simp only [if_neg hv] at hitems
    exact parse_top_round_trip_uint16 _ c.items hcount hitems

/-- Witness for C6 at a concrete input: a two-item LIST at version 3 parses
back to its count and items. -/
theorem C6_round_trip_witness :
    parse_top (decide ((3 : Int) ≥ 3)) (listTwo.encode_with_length 3) =
      some (listTwo.get_count, listTwo.items) :=
  C6_round_trip listTwo 3 (by decide) (by decide) (by decide)

/-- Claim C7: the serialization entry points are embedded state-passing style
(`const` methods with no member writes): each returns the collection
unchanged, and repeated serialization — with the same or another version, or
as top-level and as nested — yields identical buffers and sizes. -/
theorem C7_serialization_does_not_mutate (c : Collection) (v w : Int) :
    (c.encode_st).2 = c ∧
    (c.encode_with_length_st v).2 = c ∧
    (c.get_size_with_length_st v).2 = c ∧
    ((c.encode_with_length_st v).2.encode_with_length_st v).1 =
      (c.encode_with_length_st v).1 ∧
    ((c.encode_with_length_st w).2.encode_st).1 = (c.encode_st).1 ∧
    ((c.encode_st).2.get_size_with_length_st v).1 =
      (c.get_size_with_length_st v).1 :=
  ⟨rfl, rfl, rfl, rfl, rfl, rfl⟩

/-- Claim C8: nothing enforces the even-item expectation for MAP containers:
for any MAP container in any parity state, a primitive append succeeds and
appends its buffer, a type-check-passing nested append succeeds and appends
the nested encoding, and size computation agrees with serialization for the
resulting (possibly odd) item count. -/
theorem C8_map_parity_not_enforced (c : Collection) (bytes : Buffer)
    (value : Collection) (version : Int)
    (hm : c.kind = CassCollectionType.MAP) :
    c.append_bytes bytes =
      (CassError.CASS_OK, { c with items := c.items ++ [bytes] }) ∧
    (c.check_type value.value_data_type = true →
      c.append_collection value =
        (CassError.CASS_OK, { c with items := c.items ++ [value.encode] })) ∧
    (c.encode_with_length version).length = c.get_size_with_length version := by
  refine ⟨rfl, fun h => ?_, ?_⟩
  · simp [Collection.append_collection, h]
  · have ht : c.kind ≠ CassCollectionType.TUPLE := by
      rw [hm]
      intro h
      cases h
    unfold Collection.encode_with_length Collection.get_size_with_length
    rw [if_neg ht]
    by_cases hv : version ≥ 3
    · rw [if_pos hv, if_pos hv]
      simp only [List.length_append, length_encode_int32,
        length_encode_items_int32]
      omega
    · rw [if_neg hv, if_neg hv]
      simp only [List.length_append, length_encode_int32, length_encode_uint16,
        length_encode_items_uint16]
      omega

/-- A MAP container currently holding an odd number of items. -/
def mapOdd : Collection :=
  ⟨CassCollectionType.MAP, none, [[1], [2], [3]], 0, 0⟩

/-- Witness for C8 at a concrete input: appending to a MAP with an odd item
count succeeds, and its size computation matches its serialization. -/
theorem C8_map_parity_not_enforced_witness :
    mapOdd.append_bytes [9] =
      (CassError.CASS_OK, { mapOdd with items := mapOdd.items ++ [[9]] }) ∧
    (mapOdd.encode_with_length 2).length = mapOdd.get_size_with_length 2 :=
  ⟨(C8_map_parity_not_enforced mapOdd [9] mapOdd 2 rfl).1,
   (C8_map_parity_not_enforced mapOdd [9] mapOdd 2 rfl).2.2⟩

/-- Claim C9: `cass_collection_new` increments the reference count of the
fresh collection before returning (so the handle starts at one), whereas
`cass_collection_new_from_data_type` returns the fresh collection without
incrementing (so the handle starts at zero). -/
theorem C9_constructor_refcount_difference (type : CassCollectionType)
    (n : Nat) (dt : DataType) (m : Nat) (c : Collection)
    (h : cass_collection_new_from_data_type dt m = some c) :
    (cass_collection_new type n).refCount = 1 ∧ c.refCount = 0 := by
  constructor
  · rfl
  · unfold cass_collection_new_from_data_type at h
    by_cases hd : ¬ dt.is_collection ∧ ¬ dt.is_tuple
    · rw [if_pos hd] at h
      cases h
    · rw [if_neg hd] at h
      cases h
      rfl

/-- Witness for C9 at concrete inputs: a kind-constructed LIST handle has
reference count one; a type-constructed LIST handle has reference count
zero. -/
theorem C9_constructor_refcount_difference_witness :
    (cass_collection_new CassCollectionType.LIST 4).refCount = 1 ∧
      (collection_from_data_type
        (DataType.coll CassCollectionType.LIST []) 4).refCount = 0 :=
  C9_constructor_refcount_difference CassCollectionType.LIST 4
    (DataType.coll CassCollectionType.LIST []) 4
    (collection_from_data_type (DataType.coll CassCollectionType.LIST []) 4)
    rfl

/-- Claim C10: `cass_collection_append_string` behaves exactly like
`cass_collection_append_string_n` called with `strlen` of the string: both
append the text item of length `strlen` and both return `CASS_OK`
unconditionally (for every length argument). -/
theorem C10_append_string_equiv (c : Collection) (value : List Nat) (n : Nat) :
    cass_collection_append_string c value =
      cass_collection_append_string_n c value (strlen value) ∧
    (cass_collection_append_string c value).1 = CassError.CASS_OK ∧
    (cass_collection_append_string_n c value n).1 = CassError.CASS_OK ∧
    (cass_collection_append_string c value).2.items =
      c.items ++ [value.take (strlen value)] :=
  ⟨rfl, rfl, rfl, rfl⟩

end CassDriver
